import Mathlib

/-! OMAP2430 MUSB glue layer (kernel/drivers/usb/musb/omap2430.c)

A shallow embedding of the OTG glue logic: the idle timer handler, the
try-idle request, VBUS control, the transceiver notifier, the low level
quiesce and the save and restore of the two OTG wrapper registers around
suspend and resume.

Everything the driver reaches outside its own file (register accessors,
jiffies, the clock framework, header constants) is a field of `Platform`,
so every statement holds for every behaviour of the hardware.  Debug
output (`DBG`, `dev_err`) and the spin lock are not part of the model.
-/

namespace Omap2430

/-! ## Machine integers -/

/-- Truncation to a `u8`. -/
def u8 (x : Nat) : Nat := x % 2 ^ 8

/-- Truncation to a `u32`. -/
def u32 (x : Nat) : Nat := x % 2 ^ 32

/-- Truncation to an `unsigned long` (32 bits on the ARM cores this glue is built for). -/
def ulong (x : Nat) : Nat := x % 2 ^ 32

/-- Bit pattern of the C expression `~m` for an `int` constant `m`. -/
def bnot32 (m : Nat) : Nat := (2 ^ 32 - 1) ^^^ (m % 2 ^ 32)

/-- Modelled from the spec: `time_after(a, b)` is a macro of linux/jiffies.h, which is
not in src; the spec says deadlines are compared.  It is the wrap safe comparison
`(long)(b) - (long)(a) < 0` on an unsigned long of 32 bits. -/
def time_after (a b : Nat) : Bool :=
  decide (2 ^ 31 ≤ (ulong b + 2 ^ 32 - ulong a) % 2 ^ 32)

/-! ## Data model -/

/-- Hardware registers the glue layer touches through `musb->mregs`. -/
inductive Reg
  | MUSB_DEVCTL
  | MUSB_POWER
  | OTG_SYSCONFIG
  | OTG_FORCESTDBY
deriving DecidableEq, Repr

/-- Modelled from the spec: `enum usb_otg_state` is declared in linux/usb/otg.h, which is
not in src.  The spec names A_IDLE, A_WAIT_VRISE, A_WAIT_BCON, A_HOST, A_SUSPEND and
B_IDLE; the remaining members of the enumeration are the states the handlers treat
as any other state. -/
inductive usb_otg_state
  | OTG_STATE_UNDEFINED
  | OTG_STATE_B_IDLE
  | OTG_STATE_B_SRP_INIT
  | OTG_STATE_B_PERIPHERAL
  | OTG_STATE_B_WAIT_ACON
  | OTG_STATE_B_HOST
  | OTG_STATE_A_IDLE
  | OTG_STATE_A_WAIT_VRISE
  | OTG_STATE_A_WAIT_BCON
  | OTG_STATE_A_HOST
  | OTG_STATE_A_SUSPEND
  | OTG_STATE_A_PERIPHERAL
  | OTG_STATE_A_WAIT_VFALL
  | OTG_STATE_A_VBUS_ERR
deriving DecidableEq, Repr

open Reg usb_otg_state

/-- Calls into collaborators whose result the glue layer does not use: the transceiver
operations of linux/usb/otg.h and the root hub status poll.  They are recorded in
call order; they are taken not to write the fields of `Musb`. -/
inductive Call
  | otg_set_vbus (enabled : Bool)
  | otg_init
  | otg_shutdown
  | usb_hcd_poll_rh_status
deriving DecidableEq, Repr

/-- Constants and build options omap2430.c takes from headers that are not in src
(musb_regs.h, musb_core.h, omap2430.h, ch11.h, errno), with `msecs_to_jiffies`. -/
structure Consts where
  MUSB_DEVCTL_SESSION : Nat
  MUSB_DEVCTL_HM : Nat
  MUSB_POWER_RESUME : Nat
  USB_PORT_STAT_SUSPEND : Nat
  MUSB_PORT_STAT_RESUME : Nat
  USB_PORT_STAT_C_SUSPEND : Nat
  ENABLEFORCE : Nat
  ENABLEWAKEUP : Nat
  EINVAL : Nat
  HZ : Nat
  msecs_to_jiffies : Nat → Nat
  CONFIG_USB_MUSB_HDRC_HCD : Bool
  CONFIG_USB_GADGET_MUSB_HDRC : Bool
  USB_EVENT_ID : Nat
  USB_EVENT_VBUS : Nat
  USB_EVENT_NONE : Nat
  NOTIFY_OK : Int
  NOTIFY_DONE : Int
  MUSB_INTERFACE_UTMI : Nat

/-- Everything omap2430.c uses but does not define: the header constants, the register
accessors behind `musb_readb`, `musb_writeb`, `musb_readl`, `musb_writel`, the jiffies
counter, `cpu_relax`, `msleep`, the clock framework and the generic controller
context of musb_core.c.  `σ` is the state of the platform. -/
structure Platform (σ : Type) extends Consts where
  read : σ → Reg → Nat × σ
  write : σ → Reg → Nat → σ
  jiffies : σ → Nat
  cpu_relax : σ → σ
  msleep : Nat → σ → σ
  clk_enable : σ → Int × σ
  clk_disable : σ → σ
  musb_save_context : σ → σ
  musb_restore_context : σ → σ

/-- The fields of `struct musb`, of its transceiver and the file level statics of
omap2430.c that the glue layer reads or writes. -/
structure Musb (σ : Type) where
  hw : σ
  xceiv_state : usb_otg_state
  xceiv_default_a : Bool
  xceiv_set_vbus : Bool
  is_active : Bool
  is_host : Bool
  peripheral_enabled : Bool
  a_wait_bcon : Nat
  port1_status : Nat
  context_otg_sysconfig : Nat
  context_otg_forcestandby : Nat
  musb_clock_on : Bool
  last_timer : Nat
  musb_idle_timer : Option Nat
  calls : List Call
  otg_enabled : Bool
  gadget_driver : Bool
  interface_type : Nat
deriving DecidableEq, Repr

/-! ## Register access -/

section Access
variable {σ : Type} (P : Platform σ)

/-- Read of an 8 bit register. -/
def musb_readb (hw : σ) (r : Reg) : Nat × σ :=
  (u8 (P.read hw r).1, (P.read hw r).2)

/-- Write of an 8 bit register. -/
def musb_writeb (hw : σ) (r : Reg) (v : Nat) : σ :=
  P.write hw r (u8 v)

/-- Read of a 32 bit register. -/
def musb_readl (hw : σ) (r : Reg) : Nat × σ :=
  (u32 (P.read hw r).1, (P.read hw r).2)

/-- Write of a 32 bit register. -/
def musb_writel (hw : σ) (r : Reg) (v : Nat) : σ :=
  P.write hw r (u32 v)

/-- Current value of the jiffies counter. -/
def jiffies (hw : σ) : Nat := ulong (P.jiffies hw)

/-- Modelled from the spec: `mod_timer` belongs to the kernel timer interface, which is
not in src; the spec says re-arming always replaces any pending firing. -/
def mod_timer (musb : Musb σ) (expires : Nat) : Musb σ :=
  { musb with musb_idle_timer := some expires }

/-- Modelled from the spec: `del_timer` cancels the pending firing, if any. -/
def del_timer (musb : Musb σ) : Musb σ :=
  { musb with musb_idle_timer := none }

/-- Modelled from the spec: `timer_pending` tells whether a firing is pending. -/
def timer_pending (musb : Musb σ) : Bool := musb.musb_idle_timer.isSome

/-- Modelled from the spec: `MUSB_HST_MODE` is a macro of musb_core.h, which is not in src;
the spec says it switches the controller to host mode. -/
def MUSB_HST_MODE (musb : Musb σ) : Musb σ := { musb with is_host := true }

/-- Modelled from the spec: `MUSB_DEV_MODE` is a macro of musb_core.h, which is not in src;
the spec says it sets the controller to peripheral mode. -/
def MUSB_DEV_MODE (musb : Musb σ) : Musb σ := { musb with is_host := false }

/-! ## VBUS control -/

/-- The bounded wait of `omap2430_musb_set_vbus` (lines 192 to 202): poll the device
control register until bit 0x80 clears; give up with `-EINVAL` once jiffies is after
`timeout`.  The result is the final value of `ret` and the platform state; `none`
means the loop is still running when the fuel is spent. -/
def omap2430_musb_set_vbus_wait : Nat → σ → Nat → Option (Int × σ)
  | 0, _, _ => none
  | fuel + 1, hw, timeout =>
    let r := musb_readb P hw MUSB_DEVCTL
    if r.1 &&& 0x80 ≠ 0 then
      let hw1 := P.cpu_relax r.2
      if time_after (jiffies P hw1) timeout then
        some (-(P.EINVAL : Int), hw1)
      else
        omap2430_musb_set_vbus_wait fuel hw1 timeout
    else
      some (1, r.2)

/-- The function `omap2430_musb_set_vbus`. -/
def omap2430_musb_set_vbus (fuel : Nat) (musb : Musb σ) (is_on : Int) : Option (Musb σ) :=
  let timeout := ulong (jiffies P musb.hw + P.msecs_to_jiffies 1000)
  let r := musb_readb P musb.hw MUSB_DEVCTL
  let devctl := r.1
  if is_on ≠ 0 then
    if musb.xceiv_state = OTG_STATE_A_IDLE then
      let devctl := u8 (devctl ||| P.MUSB_DEVCTL_SESSION)
      let hw1 := musb_writeb P r.2 MUSB_DEVCTL devctl
      match omap2430_musb_set_vbus_wait P fuel hw1 timeout with
      | none => none
      | some (ret, hw2) =>
        let musb1 : Musb σ :=
          if ret ≠ 0 ∧ musb.xceiv_set_vbus = true then
            { musb with calls := musb.calls ++ [Call.otg_set_vbus true] }
          else musb
        some { musb1 with hw := musb_writeb P hw2 MUSB_DEVCTL devctl }
    else
      let musb1 : Musb σ := { musb with is_active := true }
      let musb2 : Musb σ := { musb1 with xceiv_default_a := true }
      let musb3 : Musb σ := { musb2 with xceiv_state := OTG_STATE_A_WAIT_VRISE }
      let devctl := u8 (devctl ||| P.MUSB_DEVCTL_SESSION)
      let musb4 := MUSB_HST_MODE musb3
      some { musb4 with hw := musb_writeb P r.2 MUSB_DEVCTL devctl }
  else
    let musb1 : Musb σ := { musb with is_active := false }
    let musb2 : Musb σ := { musb1 with xceiv_default_a := false }
    let musb3 : Musb σ := { musb2 with xceiv_state := OTG_STATE_B_IDLE }
    let devctl := u8 (devctl &&& bnot32 P.MUSB_DEVCTL_SESSION)
    let musb4 := MUSB_DEV_MODE musb3
    some { musb4 with hw := musb_writeb P r.2 MUSB_DEVCTL devctl }

/-- Repeated calls of `omap2430_musb_set_vbus` with the same argument. -/
def omap2430_musb_set_vbus_times (fuel : Nat) (is_on : Int) : Nat → Musb σ → Option (Musb σ)
  | 0, musb => some musb
  | n + 1, musb =>
    (omap2430_musb_set_vbus P fuel musb is_on).bind (omap2430_musb_set_vbus_times fuel is_on n)

/-! ## Idle timer -/

/-- The constant `POLL_SECONDS`. -/
def POLL_SECONDS : Nat := 2

/-- The body of `case OTG_STATE_B_IDLE` of `musb_do_idle` (lines 116 to 129), which the
A_HOST case falls through to. -/
def musb_do_idle_b_idle (musb : Musb σ) : Musb σ :=
  if musb.peripheral_enabled = false then musb
  else
    let r := musb_readb P musb.hw MUSB_DEVCTL
    let devctl := r.1
    let musb1 : Musb σ := { musb with hw := r.2 }
    if devctl &&& P.MUSB_DEVCTL_HM ≠ 0 then
      { musb1 with xceiv_state := OTG_STATE_A_HOST }
    else
      let musb2 := mod_timer musb1 (ulong (jiffies P musb1.hw + POLL_SECONDS * P.HZ))
      { musb2 with hw := musb_writeb P musb2.hw MUSB_DEVCTL (devctl ||| P.MUSB_DEVCTL_SESSION) }

/-- The timer handler `musb_do_idle`. -/
def musb_do_idle (musb : Musb σ) : Musb σ :=
  match musb.xceiv_state with
  | OTG_STATE_A_WAIT_BCON =>
    let r := musb_readb P musb.hw MUSB_DEVCTL
    let devctl := u8 (r.1 &&& bnot32 P.MUSB_DEVCTL_SESSION)
    let hw1 := musb_writeb P r.2 MUSB_DEVCTL devctl
    let r2 := musb_readb P hw1 MUSB_DEVCTL
    let devctl := r2.1
    let musb1 : Musb σ := { musb with hw := r2.2 }
    if devctl &&& P.MUSB_DEVCTL_HM ≠ 0 then
      MUSB_HST_MODE { musb1 with xceiv_state := OTG_STATE_A_IDLE }
    else
      let musb2 := MUSB_DEV_MODE { musb1 with xceiv_state := OTG_STATE_B_IDLE }
      mod_timer musb2 (ulong (jiffies P musb2.hw + POLL_SECONDS * P.HZ))
  | OTG_STATE_A_SUSPEND =>
    if P.CONFIG_USB_MUSB_HDRC_HCD = true then
      if musb.port1_status &&& P.MUSB_PORT_STAT_RESUME ≠ 0 then
        let r := musb_readb P musb.hw MUSB_POWER
        let power := u8 (r.1 &&& bnot32 P.MUSB_POWER_RESUME)
        let hw1 := musb_writeb P r.2 MUSB_POWER power
        let port1 := u32 (musb.port1_status &&&
          bnot32 (P.USB_PORT_STAT_SUSPEND ||| P.MUSB_PORT_STAT_RESUME))
        let port1 := u32 (port1 ||| (P.USB_PORT_STAT_C_SUSPEND <<< 16))
        { musb with
          hw := hw1
          is_active := true
          port1_status := port1
          calls := musb.calls ++ [Call.usb_hcd_poll_rh_status]
          xceiv_state := OTG_STATE_A_HOST }
      else musb
    else musb
  | OTG_STATE_A_HOST =>
    if P.CONFIG_USB_MUSB_HDRC_HCD = true then
      let r := musb_readb P musb.hw MUSB_DEVCTL
      let devctl := r.1
      let musb1 : Musb σ := { musb with hw := r.2 }
      let musb2 : Musb σ :=
        if devctl &&& P.MUSB_DEVCTL_HM ≠ 0 then
          { musb1 with xceiv_state := OTG_STATE_A_WAIT_BCON }
        else
          { musb1 with xceiv_state := OTG_STATE_B_IDLE }
      musb_do_idle_b_idle P musb2
    else musb
  | OTG_STATE_B_IDLE => musb_do_idle_b_idle P musb
  | _ => musb

/-- The function `omap2430_musb_try_idle`; `last_timer` is its static variable. -/
def omap2430_musb_try_idle (musb : Musb σ) (timeout : Nat) : Musb σ :=
  let default_timeout := ulong (jiffies P musb.hw + P.msecs_to_jiffies 3)
  let timeout := if timeout = 0 then default_timeout else timeout
  if musb.is_active = true ∨
      (musb.a_wait_bcon = 0 ∧ musb.xceiv_state = OTG_STATE_A_WAIT_BCON) then
    let musb1 := del_timer musb
    { musb1 with last_timer := jiffies P musb1.hw }
  else if time_after musb.last_timer timeout = true then
    if timer_pending musb = false then
      let musb1 : Musb σ := { musb with last_timer := timeout }
      let musb2 : Musb σ := { musb1 with last_timer := timeout }
      mod_timer musb2 timeout
    else
      musb
  else
    let musb1 : Musb σ := { musb with last_timer := timeout }
    mod_timer musb1 timeout

/-! ## Low level quiesce and context -/

/-- The function `omap2430_low_level_exit`. -/
def omap2430_low_level_exit (musb : Musb σ) : Musb σ :=
  let r := musb_readl P musb.hw OTG_FORCESTDBY
  let l := u32 (r.1 ||| P.ENABLEFORCE)
  let hw1 := musb_writel P r.2 OTG_FORCESTDBY l
  let r2 := musb_readl P hw1 OTG_SYSCONFIG
  let l := u32 (r2.1 ||| P.ENABLEWAKEUP)
  { musb with hw := musb_writel P r2.2 OTG_SYSCONFIG l }

/-- The function `omap2430_low_level_init`. -/
def omap2430_low_level_init (musb : Musb σ) : Musb σ :=
  let r := musb_readl P musb.hw OTG_SYSCONFIG
  let l := u32 (r.1 &&& bnot32 P.ENABLEWAKEUP)
  let hw1 := musb_writel P r.2 OTG_SYSCONFIG l
  let r2 := musb_readl P hw1 OTG_FORCESTDBY
  let l := u32 (r2.1 &&& bnot32 P.ENABLEFORCE)
  { musb with hw := musb_writel P r2.2 OTG_FORCESTDBY l }

/-- The function `omap2430_save_context`. -/
def omap2430_save_context (musb : Musb σ) : Musb σ :=
  let r := musb_readl P musb.hw OTG_SYSCONFIG
  let musb1 : Musb σ := { musb with hw := r.2, context_otg_sysconfig := r.1 }
  let r2 := musb_readl P musb1.hw OTG_FORCESTDBY
  { musb1 with hw := r2.2, context_otg_forcestandby := r2.1 }

/-- The function `omap2430_restore_context`. -/
def omap2430_restore_context (musb : Musb σ) : Musb σ :=
  let hw1 := musb_writel P musb.hw OTG_SYSCONFIG musb.context_otg_sysconfig
  { musb with hw := musb_writel P hw1 OTG_FORCESTDBY musb.context_otg_forcestandby }

/-- The function `omap2430_idle_save_context`, on the controller `gb_musb`. -/
def omap2430_idle_save_context (musb : Musb σ) : Musb σ :=
  if musb.musb_clock_on = false then musb
  else
    let musb1 : Musb σ := { musb with hw := P.musb_save_context musb.hw }
    omap2430_save_context P musb1

/-- The function `omap2430_idle_restore_context`, on the controller `gb_musb`. -/
def omap2430_idle_restore_context (musb : Musb σ) : Musb σ :=
  if musb.musb_clock_on = false then musb
  else
    let musb1 := omap2430_restore_context P musb
    { musb1 with hw := P.musb_restore_context musb1.hw }

/-- The function `omap2430_suspend`: the return value and the state it leaves. -/
def omap2430_suspend (musb : Musb σ) : Int × Musb σ :=
  if musb.musb_clock_on = false then (0, musb)
  else
    let musb1 := omap2430_low_level_exit P musb
    let musb2 : Musb σ := { musb1 with hw := P.msleep 20 musb1.hw }
    let musb3 : Musb σ := { musb2 with hw := P.musb_save_context musb2.hw }
    let musb4 := omap2430_save_context P musb3
    let musb5 : Musb σ := { musb4 with hw := P.clk_disable musb4.hw }
    (0, { musb5 with musb_clock_on := false })

/-- The function `omap2430_resume`: the return value and the state it leaves. -/
def omap2430_resume (musb : Musb σ) : Int × Musb σ :=
  if musb.musb_clock_on = true then (0, musb)
  else
    let c := P.clk_enable musb.hw
    let ret := c.1
    let musb1 : Musb σ := { musb with hw := c.2 }
    if ret ≠ 0 then (ret, musb1)
    else
      let musb2 : Musb σ := { musb1 with musb_clock_on := true }
      let musb3 := omap2430_restore_context P musb2
      let musb4 := omap2430_low_level_init P musb3
      let musb5 : Musb σ := { musb4 with hw := P.musb_restore_context musb4.hw }
      (0, { musb5 with hw := P.msleep 20 musb5.hw })

/-! ## Transceiver notifications -/

/-- Modelled from the spec: `otg_init` is an inline of linux/usb/otg.h, which is not in src;
the spec says it re-initializes the transceiver.  The call is recorded. -/
def otg_init (musb : Musb σ) : Musb σ :=
  { musb with calls := musb.calls ++ [Call.otg_init] }

/-- Modelled from the spec: `otg_shutdown` is an inline of linux/usb/otg.h, which is not in
src; the spec says it shuts the transceiver down.  The call is recorded. -/
def otg_shutdown (musb : Musb σ) : Musb σ :=
  { musb with calls := musb.calls ++ [Call.otg_shutdown] }

/-- Modelled from the spec: `otg_set_vbus` is an inline of linux/usb/otg.h, which is not in
src; the spec says it is the VBUS request to the transceiver.  The call is recorded. -/
def otg_set_vbus (musb : Musb σ) (enabled : Bool) : Musb σ :=
  { musb with calls := musb.calls ++ [Call.otg_set_vbus enabled] }

/-- The notifier `musb_otg_notifications`: the return value and the state it leaves.  The
case labels of the switch are tried in source order. -/
def musb_otg_notifications (fuel : Nat) (musb : Musb σ) (event : Nat) :
    Option (Int × Musb σ) :=
  if event = P.USB_EVENT_ID then
    let r : Option (Musb σ) :=
      if musb.otg_enabled = true then
        if P.CONFIG_USB_GADGET_MUSB_HDRC = true then
          if musb.gadget_driver = true then
            let musb1 := otg_init musb
            if musb1.interface_type = P.MUSB_INTERFACE_UTMI then
              omap2430_musb_set_vbus P fuel musb1 1
            else some musb1
          else some musb
        else some musb
      else
        let musb1 := otg_init musb
        if musb1.interface_type = P.MUSB_INTERFACE_UTMI then
          omap2430_musb_set_vbus P fuel musb1 1
        else some musb1
    r.map (fun m => (P.NOTIFY_OK, m))
  else if event = P.USB_EVENT_VBUS then
    some (P.NOTIFY_OK, otg_init musb)
  else if event = P.USB_EVENT_NONE then
    let musb1 : Musb σ :=
      if musb.interface_type = P.MUSB_INTERFACE_UTMI then
        if musb.xceiv_set_vbus = true then otg_set_vbus musb false else musb
      else musb
    some (P.NOTIFY_OK, otg_shutdown musb1)
  else
    some (P.NOTIFY_DONE, musb)

/-- The platform state at the next poll of the bounded wait, when the wait goes on. -/
def omap2430_musb_set_vbus_wait_next (hw : σ) : σ :=
  P.cpu_relax (musb_readb P hw MUSB_DEVCTL).2

/-- The bounded wait ends at the poll that starts in `hw`: bit 0x80 reads as clear, or
jiffies is after `timeout` once `cpu_relax` has run. -/
def omap2430_musb_set_vbus_wait_ends (hw : σ) (timeout : Nat) : Bool :=
  decide ((musb_readb P hw MUSB_DEVCTL).1 &&& 0x80 = 0) ||
    time_after (jiffies P (omap2430_musb_set_vbus_wait_next P hw)) timeout

/-- The platform state `omap2430_suspend` takes its snapshot from: after the low level
quiesce, the settle delay and the save of the generic controller context. -/
def omap2430_suspend_quiesced (musb : Musb σ) : σ :=
  P.musb_save_context (P.msleep 20 (omap2430_low_level_exit P musb).hw)

/-- Registers behave as storage: a read has no effect and returns the last written value,
and a write replaces the previous write to the same register. -/
def Platform.IsStorage (P : Platform σ) : Prop :=
  (∀ hw r, (P.read hw r).2 = hw) ∧
  (∀ hw r v, (P.read (P.write hw r v) r).1 = v) ∧
  (∀ hw r v w, P.write (P.write hw r v) r w = P.write hw r w)

end Access

/-! ## A register file platform -/

/-- A platform whose registers are plain storage: a read returns the last written value
and changes nothing.  `clk_enable_ret` is the result the clock framework gives. -/
structure RegFile where
  devctl : Nat
  power : Nat
  otg_sysconfig : Nat
  otg_forcestdby : Nat
  jiffies : Nat
  clk_on : Bool
  clk_enable_ret : Int
deriving DecidableEq, Repr

/-- Read of a register of the register file. -/
def RegFile.get (hw : RegFile) : Reg → Nat
  | MUSB_DEVCTL => hw.devctl
  | MUSB_POWER => hw.power
  | OTG_SYSCONFIG => hw.otg_sysconfig
  | OTG_FORCESTDBY => hw.otg_forcestdby

/-- Write of a register of the register file. -/
def RegFile.set (hw : RegFile) (r : Reg) (v : Nat) : RegFile :=
  match r with
  | MUSB_DEVCTL => { hw with devctl := v }
  | MUSB_POWER => { hw with power := v }
  | OTG_SYSCONFIG => { hw with otg_sysconfig := v }
  | OTG_FORCESTDBY => { hw with otg_forcestdby := v }

/-- The constants at the values of the kernel headers, with HZ = 128. -/
def linux : Consts where
  MUSB_DEVCTL_SESSION := 0x01
  MUSB_DEVCTL_HM := 0x04
  MUSB_POWER_RESUME := 0x04
  USB_PORT_STAT_SUSPEND := 0x0004
  MUSB_PORT_STAT_RESUME := 2 ^ 31
  USB_PORT_STAT_C_SUSPEND := 0x0004
  ENABLEFORCE := 2 ^ 0
  ENABLEWAKEUP := 2 ^ 2
  EINVAL := 22
  HZ := 128
  msecs_to_jiffies := fun m => (m * 128 + 999) / 1000
  CONFIG_USB_MUSB_HDRC_HCD := true
  CONFIG_USB_GADGET_MUSB_HDRC := true
  USB_EVENT_ID := 2
  USB_EVENT_VBUS := 1
  USB_EVENT_NONE := 0
  NOTIFY_OK := 1
  NOTIFY_DONE := 0
  MUSB_INTERFACE_UTMI := 2

/-- Constants with a bounded wait of two jiffies, to run the wait to its timeout. -/
def shortWait : Consts := { linux with msecs_to_jiffies := fun _ => 2 }

/-- The register file platform for the constants `K`.  One `cpu_relax` lasts one jiffy;
the generic controller context does not touch the registers of the glue layer. -/
def regFile (K : Consts) : Platform RegFile where
  toConsts := K
  read := fun hw r => (hw.get r, hw)
  write := fun hw r v => hw.set r v
  jiffies := fun hw => hw.jiffies
  cpu_relax := fun hw => { hw with jiffies := hw.jiffies + 1 }
  msleep := fun _ hw => hw
  clk_enable := fun hw =>
    (hw.clk_enable_ret, if hw.clk_enable_ret = 0 then { hw with clk_on := true } else hw)
  clk_disable := fun hw => { hw with clk_on := false }
  musb_save_context := fun hw => hw
  musb_restore_context := fun hw => hw

/-- A register file with the given device control register and jiffies. -/
def regs0 (devctl jiffies : Nat) : RegFile :=
  { devctl := devctl, power := 0, otg_sysconfig := 0, otg_forcestdby := 0,
    jiffies := jiffies, clk_on := true, clk_enable_ret := 0 }

/-- A controller at rest in the given OTG state on the given platform state. -/
def musb0 {σ : Type} (hw : σ) (st : usb_otg_state) : Musb σ :=
  { hw := hw, xceiv_state := st, xceiv_default_a := false, xceiv_set_vbus := true,
    is_active := false, is_host := false, peripheral_enabled := false,
    a_wait_bcon := 1100, port1_status := 0,
    context_otg_sysconfig := 0, context_otg_forcestandby := 0,
    musb_clock_on := true, last_timer := 0, musb_idle_timer := none, calls := [],
    otg_enabled := false, gadget_driver := false, interface_type := 2 }

/-! ## Bit level facts -/

theorem testBit_bnot32 (m i : Nat) :
    (bnot32 m).testBit i = (decide (i < 32) && !m.testBit i) := by
  unfold bnot32
  rw [Nat.testBit_xor, Nat.testBit_two_pow_sub_one, Nat.testBit_mod_two_pow]
  cases decide (i < 32) <;> cases m.testBit i <;> rfl

theorem testBit_u8_clear (d m i : Nat) :
    (u8 (u8 d &&& bnot32 m)).testBit i = (decide (i < 8) && d.testBit i && !m.testBit i) := by
  unfold u8
  rw [Nat.testBit_mod_two_pow, Nat.testBit_and, Nat.testBit_mod_two_pow, testBit_bnot32]
  by_cases h : i < 8
  · have h32 : i < 32 := by omega
    simp [h, h32]
  · simp [h]

theorem testBit_u8_set (d m i : Nat) :
    (u8 (u8 d ||| m)).testBit i = (decide (i < 8) && (d.testBit i || m.testBit i)) := by
  unfold u8
  rw [Nat.testBit_mod_two_pow, Nat.testBit_or, Nat.testBit_mod_two_pow]
  by_cases h : i < 8 <;> simp [h]

theorem u8_idem (x : Nat) : u8 (u8 x) = u8 x := by
  unfold u8
  exact Nat.mod_mod _ _

theorem u8_clear_idem (d m : Nat) :
    u8 (u8 (u8 (u8 d &&& bnot32 m)) &&& bnot32 m) = u8 (u8 d &&& bnot32 m) := by
  apply Nat.eq_of_testBit_eq
  intro i
  rw [testBit_u8_clear, testBit_u8_clear]
  cases decide (i < 8) <;> cases d.testBit i <;> cases m.testBit i <;> rfl

theorem regFile_isStorage (K : Consts) : (regFile K).IsStorage := by
  refine ⟨fun hw r => rfl, fun hw r v => ?_, fun hw r v w => ?_⟩
  · cases r <;> rfl
  · cases r <;> rfl

/-! ## VBUS control -/

section SetVbus
variable {σ : Type} (P : Platform σ)

theorem set_vbus_off_eq (fuel : Nat) (musb : Musb σ) :
    omap2430_musb_set_vbus P fuel musb 0 =
      some { musb with
        hw := P.write (P.read musb.hw MUSB_DEVCTL).2 MUSB_DEVCTL
          (u8 (u8 (P.read musb.hw MUSB_DEVCTL).1 &&& bnot32 P.MUSB_DEVCTL_SESSION))
        xceiv_state := OTG_STATE_B_IDLE
        is_active := false
        xceiv_default_a := false
        is_host := false } := by
  simp [omap2430_musb_set_vbus, MUSB_DEV_MODE, musb_writeb, musb_readb, u8_idem]

theorem set_vbus_off_twice (h : P.IsStorage) (fuel : Nat) (musb musb1 : Musb σ)
    (h1 : omap2430_musb_set_vbus P fuel musb 0 = some musb1) :
    omap2430_musb_set_vbus P fuel musb1 0 = some musb1 := by
  obtain ⟨hr, hrw, hww⟩ := h
  rw [set_vbus_off_eq] at h1
  rw [set_vbus_off_eq]
  cases h1
  simp only [hr, hrw, hww, u8_clear_idem]

theorem set_vbus_off_times (fuel : Nat) (musb1 : Musb σ)
    (h1 : omap2430_musb_set_vbus P fuel musb1 0 = some musb1) (n : Nat) :
    omap2430_musb_set_vbus_times P fuel 0 n musb1 = some musb1 := by
  induction n with
  | zero => rfl
  | succ n ih => simp [omap2430_musb_set_vbus_times, h1, ih]

/-- C1: for every prior state, `omap2430_musb_set_vbus(musb, 0)` returns with the OTG
state B_IDLE, `is_active` and `default_a` cleared, the controller in peripheral mode,
and the device control register written with the value read, its session bits cleared
and every other bit unchanged; nothing else changes.  On a platform whose registers
behave as storage, any number n + 1 of such calls gives the state one call gives. -/
theorem set_vbus_off_idempotent (fuel : Nat) (musb : Musb σ) :
    (omap2430_musb_set_vbus P fuel musb 0 =
      some { musb with
        hw := P.write (musb_readb P musb.hw MUSB_DEVCTL).2 MUSB_DEVCTL
          (u8 ((musb_readb P musb.hw MUSB_DEVCTL).1 &&& bnot32 P.MUSB_DEVCTL_SESSION))
        xceiv_state := OTG_STATE_B_IDLE
        is_active := false
        xceiv_default_a := false
        is_host := false }) ∧
    (∀ i, (u8 ((musb_readb P musb.hw MUSB_DEVCTL).1 &&&
        bnot32 P.MUSB_DEVCTL_SESSION)).testBit i =
      ((musb_readb P musb.hw MUSB_DEVCTL).1.testBit i && !P.MUSB_DEVCTL_SESSION.testBit i)) ∧
    (P.IsStorage → ∀ n, omap2430_musb_set_vbus_times P fuel 0 (n + 1) musb =
      omap2430_musb_set_vbus P fuel musb 0) := by
  refine ⟨set_vbus_off_eq P fuel musb, fun i => ?_, fun h n => ?_⟩
  · simp only [musb_readb]
    rw [testBit_u8_clear]
    unfold u8
    rw [Nat.testBit_mod_two_pow]
  · have h1 := set_vbus_off_eq P fuel musb
    have h2 := set_vbus_off_twice P h fuel musb _ h1
    have h3 := set_vbus_off_times P fuel _ h2 n
    simp only [omap2430_musb_set_vbus_times]
    rw [h1]
    exact h3

theorem set_vbus_wait_returns (k : Nat) :
    ∀ (fuel : Nat) (hw : σ) (timeout : Nat), k < fuel →
      omap2430_musb_set_vbus_wait_ends P
        ((omap2430_musb_set_vbus_wait_next P)^[k] hw) timeout = true →
      ∃ r, omap2430_musb_set_vbus_wait P fuel hw timeout = some r := by
  induction k with
  | zero =>
    intro fuel hw timeout hk hend
    obtain ⟨f, rfl⟩ : ∃ f, fuel = f + 1 := ⟨fuel - 1, by omega⟩
    simp only [Function.iterate_zero, id_eq, omap2430_musb_set_vbus_wait_ends,
      omap2430_musb_set_vbus_wait_next, Bool.or_eq_true, decide_eq_true_eq] at hend
    unfold omap2430_musb_set_vbus_wait
    by_cases hb : (musb_readb P hw MUSB_DEVCTL).1 &&& 0x80 = 0
    · simp [hb]
    · rcases hend with hend | hend
      · exact absurd hend hb
      · simp [hb, hend]
  | succ k ih =>
    intro fuel hw timeout hk hend
    obtain ⟨f, rfl⟩ : ∃ f, fuel = f + 1 := ⟨fuel - 1, by omega⟩
    rw [Function.iterate_succ_apply] at hend
    unfold omap2430_musb_set_vbus_wait
    by_cases hb : (musb_readb P hw MUSB_DEVCTL).1 &&& 0x80 = 0
    · simp [hb]
    · by_cases ht : time_after (jiffies P (P.cpu_relax (musb_readb P hw MUSB_DEVCTL).2))
          timeout = true
      · simp [hb, ht]
      · simp only [ne_eq, hb, not_false_eq_true, ↓reduceIte, ht]
        exact ih f _ timeout (by omega) hend

/-- C2: `omap2430_musb_set_vbus(musb, 1)` in state A_IDLE leaves `is_active`, `default_a`
and the OTG state as they were, whatever the bounded wait gives, and it returns as
soon as the wait ends (bit 0x80 clear or the timeout passed at poll k, with more than
k polls of fuel).  In every other state it returns with `is_active` and `default_a`
set, the state A_WAIT_VRISE, host mode, and the device control register written with
the value read and the session bits set. -/
theorem set_vbus_on_flags (fuel : Nat) (musb : Musb σ) :
    (musb.xceiv_state = OTG_STATE_A_IDLE →
      (∀ musb1, omap2430_musb_set_vbus P fuel musb 1 = some musb1 →
        musb1.is_active = musb.is_active ∧
        musb1.xceiv_default_a = musb.xceiv_default_a ∧
        musb1.xceiv_state = musb.xceiv_state) ∧
      (∀ k, k < fuel →
        omap2430_musb_set_vbus_wait_ends P
          ((omap2430_musb_set_vbus_wait_next P)^[k]
            (musb_writeb P (musb_readb P musb.hw MUSB_DEVCTL).2 MUSB_DEVCTL
              (u8 ((musb_readb P musb.hw MUSB_DEVCTL).1 ||| P.MUSB_DEVCTL_SESSION))))
          (ulong (jiffies P musb.hw + P.msecs_to_jiffies 1000)) = true →
        ∃ musb1, omap2430_musb_set_vbus P fuel musb 1 = some musb1)) ∧
    (musb.xceiv_state ≠ OTG_STATE_A_IDLE →
      omap2430_musb_set_vbus P fuel musb 1 =
        some { musb with
          hw := P.write (musb_readb P musb.hw MUSB_DEVCTL).2 MUSB_DEVCTL
            (u8 ((musb_readb P musb.hw MUSB_DEVCTL).1 ||| P.MUSB_DEVCTL_SESSION))
          xceiv_state := OTG_STATE_A_WAIT_VRISE
          is_active := true
          xceiv_default_a := true
          is_host := true } ∧
      ∀ i, (u8 ((musb_readb P musb.hw MUSB_DEVCTL).1 ||| P.MUSB_DEVCTL_SESSION)).testBit i =
        (decide (i < 8) &&
          ((musb_readb P musb.hw MUSB_DEVCTL).1.testBit i ||
            P.MUSB_DEVCTL_SESSION.testBit i))) := by
  refine ⟨fun hst => ⟨fun musb1 h => ?_, fun k hk hend => ?_⟩, fun hst => ⟨?_, fun i => ?_⟩⟩
  · simp only [omap2430_musb_set_vbus, ne_eq, one_ne_zero, not_false_eq_true, ↓reduceIte,
      hst] at h
    split at h
    · exact absurd h (by simp)
    · cases h
      split <;> simp [hst]
  · obtain ⟨r, hr⟩ := set_vbus_wait_returns P k fuel _ _ hk hend
    simp only [omap2430_musb_set_vbus, ne_eq, one_ne_zero, not_false_eq_true, ↓reduceIte,
      hst, hr]
    exact ⟨_, rfl⟩
  · simp [omap2430_musb_set_vbus, hst, MUSB_HST_MODE, musb_writeb, u8_idem]
  · simp only [musb_readb]
    rw [testBit_u8_set]
    unfold u8
    rw [Nat.testBit_mod_two_pow]
    cases decide (i < 8) <;> simp

end SetVbus

/-- Witness for C2 on the register file: from A_IDLE with bit 0x80 clear the wait ends at
the first poll; with bit 0x80 stuck and a wait of two jiffies it times out at the third
poll; from B_IDLE the flags are set. -/
theorem set_vbus_on_flags_witness :
    (∃ musb1,
      omap2430_musb_set_vbus (regFile linux) 1 (musb0 (regs0 0x7e 100) OTG_STATE_A_IDLE) 1 =
        some musb1 ∧
      musb1.is_active = false ∧ musb1.xceiv_default_a = false ∧
      musb1.xceiv_state = OTG_STATE_A_IDLE) ∧
    (∃ musb1,
      omap2430_musb_set_vbus (regFile shortWait) 4 (musb0 (regs0 0x80 100) OTG_STATE_A_IDLE)
        1 = some musb1 ∧
      musb1.is_active = false ∧ musb1.xceiv_default_a = false ∧
      musb1.xceiv_state = OTG_STATE_A_IDLE) ∧
    omap2430_musb_set_vbus (regFile linux) 0 (musb0 (regs0 0x7e 100) OTG_STATE_B_IDLE) 1 =
      some { musb0 (regs0 0x7f 100) OTG_STATE_A_WAIT_VRISE with
        is_active := true, xceiv_default_a := true, is_host := true } := by
  have hA := (set_vbus_on_flags (regFile linux) 1
    (musb0 (regs0 0x7e 100) OTG_STATE_A_IDLE)).1 rfl
  have hT := (set_vbus_on_flags (regFile shortWait) 4
    (musb0 (regs0 0x80 100) OTG_STATE_A_IDLE)).1 rfl
  have hB := (set_vbus_on_flags (regFile linux) 0
    (musb0 (regs0 0x7e 100) OTG_STATE_B_IDLE)).2 (by decide)
  obtain ⟨musb1, h1⟩ := hA.2 0 (by decide) (by decide)
  obtain ⟨musb2, h2⟩ := hT.2 2 (by decide) (by decide)
  exact ⟨⟨musb1, h1, hA.1 musb1 h1⟩, ⟨musb2, h2, hT.1 musb2 h2⟩, hB.1.trans (by decide)⟩

/-- Witness for C1 on the register file: three calls from A_HOST with all bits set. -/
theorem set_vbus_off_idempotent_witness :
    (regFile linux).IsStorage ∧
    omap2430_musb_set_vbus_times (regFile linux) 0 0 3 (musb0 (regs0 0xff 100) OTG_STATE_A_HOST) =
      omap2430_musb_set_vbus (regFile linux) 0 (musb0 (regs0 0xff 100) OTG_STATE_A_HOST) 0 :=
  ⟨(regFile_isStorage linux),
    (set_vbus_off_idempotent (regFile linux) 0 (musb0 (regs0 0xff 100) OTG_STATE_A_HOST)).2.2
      (regFile_isStorage linux) 2⟩

/-! ## Try idle -/

theorem time_after_eq (a b : Nat) (ha : a < 2 ^ 32) (hb : b < 2 ^ 32)
    (hab : a - b < 2 ^ 31) (hba : b - a < 2 ^ 31) :
    time_after a b = decide (b < a) := by
  unfold time_after ulong
  rw [Nat.mod_eq_of_lt ha, Nat.mod_eq_of_lt hb]
  apply decide_eq_decide.mpr
  omega

section TryIdle
variable {σ : Type} (P : Platform σ)

theorem try_idle_first (musb : Musb σ) (t : Nat) (hact : musb.is_active = false)
    (hskip : ¬ (musb.a_wait_bcon = 0 ∧ musb.xceiv_state = OTG_STATE_A_WAIT_BCON))
    (hpend : musb.musb_idle_timer = none) (ht : t ≠ 0) :
    omap2430_musb_try_idle P musb t =
      { musb with last_timer := t, musb_idle_timer := some t } := by
  unfold omap2430_musb_try_idle
  simp only [ht, ↓reduceIte, hact, Bool.false_eq_true, false_or, hskip, timer_pending, hpend,
    Option.isSome_none, mod_timer]
  split <;> rfl

/-- C3 as amended: after two `omap2430_musb_try_idle` requests in succession with non-zero
deadlines t1 then t2 less than 2^31 apart (link not active, not in the skip condition,
no timer pending before the first request), exactly one firing is pending and its
deadline, which is also `last_timer`, is the later of the two: a nearer second request
is ignored and a farther second request replaces the pending one. -/
theorem try_idle_twice_keeps_later (musb : Musb σ) (t1 t2 : Nat)
    (hact : musb.is_active = false)
    (hskip : ¬ (musb.a_wait_bcon = 0 ∧ musb.xceiv_state = OTG_STATE_A_WAIT_BCON))
    (hpend : musb.musb_idle_timer = none) (h1 : t1 ≠ 0) (h2 : t2 ≠ 0)
    (hw1 : t1 < 2 ^ 32) (hw2 : t2 < 2 ^ 32)
    (hd1 : t1 - t2 < 2 ^ 31) (hd2 : t2 - t1 < 2 ^ 31) :
    omap2430_musb_try_idle P (omap2430_musb_try_idle P musb t1) t2 =
      { musb with last_timer := max t1 t2, musb_idle_timer := some (max t1 t2) } := by
  rw [try_idle_first P musb t1 hact hskip hpend h1]
  unfold omap2430_musb_try_idle
  simp only [h2, ↓reduceIte, hact, Bool.false_eq_true, false_or, hskip, timer_pending,
    Option.isSome_some, mod_timer, time_after_eq t1 t2 hw1 hw2 hd1 hd2, decide_eq_true_eq]
  by_cases h : t2 < t1
  · simp [h, Nat.max_eq_left (Nat.le_of_lt h)]
  · simp [h, Nat.max_eq_right (Nat.le_of_not_lt h)]

/-- C4: `omap2430_musb_try_idle` skips idling when `is_active` is set, or when
`a_wait_bcon == 0` in state A_WAIT_BCON: for every timeout no firing is pending after the
call, `last_timer` is the current jiffies and nothing else changes.  When that
condition does not hold a firing is pending after the call. -/
theorem try_idle_skip_iff (musb : Musb σ) (timeout : Nat) :
    ((musb.is_active = true ∨
        (musb.a_wait_bcon = 0 ∧ musb.xceiv_state = OTG_STATE_A_WAIT_BCON)) →
      omap2430_musb_try_idle P musb timeout =
        { musb with musb_idle_timer := none, last_timer := jiffies P musb.hw }) ∧
    (¬ (musb.is_active = true ∨
        (musb.a_wait_bcon = 0 ∧ musb.xceiv_state = OTG_STATE_A_WAIT_BCON)) →
      (omap2430_musb_try_idle P musb timeout).musb_idle_timer.isSome = true) := by
  refine ⟨fun h => ?_, fun h => ?_⟩
  · unfold omap2430_musb_try_idle
    simp only [h, ↓reduceIte, del_timer]
  · unfold omap2430_musb_try_idle
    simp only [h, ↓reduceIte, timer_pending, mod_timer]
    generalize (if timeout = 0 then _ else timeout) = t
    by_cases ha : time_after musb.last_timer t = true
    · by_cases hp : musb.musb_idle_timer.isSome = false
      · simp [ha, hp]
      · simp only [ha, ↓reduceIte]
        rw [if_neg hp]
        cases hm : musb.musb_idle_timer.isSome
        · exact absurd hm hp
        · rfl
    · simp [ha]

end TryIdle

/-- Witness for C3 as amended: deadlines 1000 then 500 at jiffies 100. -/
theorem try_idle_twice_keeps_later_witness :
    omap2430_musb_try_idle (regFile linux)
        (omap2430_musb_try_idle (regFile linux) (musb0 (regs0 0 100) OTG_STATE_B_IDLE) 1000)
        500 =
      { musb0 (regs0 0 100) OTG_STATE_B_IDLE with
        last_timer := 1000, musb_idle_timer := some 1000 } :=
  try_idle_twice_keeps_later (regFile linux) (musb0 (regs0 0 100) OTG_STATE_B_IDLE) 1000 500
    rfl (by decide) rfl (by decide) (by decide) (by decide) (by decide) (by decide)
    (by decide)

/-- Counterexample to C3 as stated: the pending deadline after two requests is not always
the sooner of the two.  At jiffies 100 with no timer pending, requests for 1000 then
500, and for 500 then 1000, both leave the firing at 1000. -/
theorem try_idle_twice_counterexample :
    ¬ (∀ (musb : Musb RegFile) (t1 t2 : Nat),
        musb.is_active = false →
        ¬ (musb.a_wait_bcon = 0 ∧ musb.xceiv_state = OTG_STATE_A_WAIT_BCON) →
        musb.musb_idle_timer = none →
        t1 ≠ 0 → t2 ≠ 0 →
        jiffies (regFile linux) musb.hw < t1 → jiffies (regFile linux) musb.hw < t2 →
        t1 < 2 ^ 31 → t2 < 2 ^ 31 →
        (omap2430_musb_try_idle (regFile linux)
          (omap2430_musb_try_idle (regFile linux) musb t1) t2).musb_idle_timer =
          some (min t1 t2)) := by
  intro h
  have h1 := h (musb0 (regs0 0 100) OTG_STATE_B_IDLE) 1000 500 rfl (by decide) rfl
    (by decide) (by decide) (by decide) (by decide) (by decide) (by decide)
  revert h1
  decide

/-- Witness for C4: an active link cancels the pending firing at 700; an idle link in
B_IDLE keeps a firing pending. -/
theorem try_idle_skip_iff_witness :
    omap2430_musb_try_idle (regFile linux)
        { musb0 (regs0 0 100) OTG_STATE_A_HOST with
          is_active := true, musb_idle_timer := some 700 } 900 =
      { musb0 (regs0 0 100) OTG_STATE_A_HOST with is_active := true, last_timer := 100 } ∧
    (omap2430_musb_try_idle (regFile linux)
      (musb0 (regs0 0 100) OTG_STATE_B_IDLE) 900).musb_idle_timer.isSome = true :=
  ⟨(try_idle_skip_iff (regFile linux)
      { musb0 (regs0 0 100) OTG_STATE_A_HOST with
        is_active := true, musb_idle_timer := some 700 } 900).1 (Or.inl rfl),
    (try_idle_skip_iff (regFile linux) (musb0 (regs0 0 100) OTG_STATE_B_IDLE) 900).2
      (by decide)⟩

/-! ## Power context -/

theorem u32_idem (x : Nat) : u32 (u32 x) = u32 x := by
  unfold u32
  exact Nat.mod_mod _ _

theorem testBit_u32_set (d m i : Nat) :
    (u32 (u32 d ||| m)).testBit i = (decide (i < 32) && (d.testBit i || m.testBit i)) := by
  unfold u32
  rw [Nat.testBit_mod_two_pow, Nat.testBit_or, Nat.testBit_mod_two_pow]
  by_cases h : i < 32 <;> simp [h]

theorem testBit_u32_clear (d m i : Nat) :
    (u32 (u32 d &&& bnot32 m)).testBit i =
      (decide (i < 32) && d.testBit i && !m.testBit i) := by
  unfold u32
  rw [Nat.testBit_mod_two_pow, Nat.testBit_and, Nat.testBit_mod_two_pow, testBit_bnot32]
  by_cases h : i < 32 <;> simp [h]

theorem u32_of_lt (x : Nat) (h : x < 2 ^ 32) : u32 x = x := by
  unfold u32
  exact Nat.mod_eq_of_lt h

/-- C5: with the clock-enabled flag set, `omap2430_idle_save_context` followed by
`omap2430_idle_restore_context` writes to OTG_SYSCONFIG and OTG_FORCESTDBY exactly the
values the save read, whatever state the platform is in between the two calls.  On the
register file the two registers then hold the values they held before the save,
whatever they were changed to in between, and an immediate restore leaves registers
of 32 bits exactly as they were. -/
theorem idle_save_restore_roundtrip :
    (∀ (σ : Type) (P : Platform σ) (musb : Musb σ) (hw1 : σ),
      musb.musb_clock_on = true →
      omap2430_idle_restore_context P { omap2430_idle_save_context P musb with hw := hw1 } =
        { musb with
          hw := P.musb_restore_context
            (P.write
              (P.write hw1 OTG_SYSCONFIG
                (musb_readl P (P.musb_save_context musb.hw) OTG_SYSCONFIG).1)
              OTG_FORCESTDBY
              (musb_readl P (musb_readl P (P.musb_save_context musb.hw) OTG_SYSCONFIG).2
                OTG_FORCESTDBY).1)
          context_otg_sysconfig :=
            (musb_readl P (P.musb_save_context musb.hw) OTG_SYSCONFIG).1
          context_otg_forcestandby :=
            (musb_readl P (musb_readl P (P.musb_save_context musb.hw) OTG_SYSCONFIG).2
              OTG_FORCESTDBY).1 }) ∧
    (∀ (K : Consts) (musb : Musb RegFile) (hw1 : RegFile),
      musb.musb_clock_on = true →
      (omap2430_idle_restore_context (regFile K)
          { omap2430_idle_save_context (regFile K) musb with hw := hw1 }).hw =
        { hw1 with
          otg_sysconfig := (musb_readl (regFile K) musb.hw OTG_SYSCONFIG).1
          otg_forcestdby := (musb_readl (regFile K) musb.hw OTG_FORCESTDBY).1 }) ∧
    (∀ (K : Consts) (musb : Musb RegFile),
      musb.musb_clock_on = true →
      musb.hw.otg_sysconfig < 2 ^ 32 → musb.hw.otg_forcestdby < 2 ^ 32 →
      (omap2430_idle_restore_context (regFile K)
          (omap2430_idle_save_context (regFile K) musb)).hw = musb.hw) := by
  refine ⟨fun σ P musb hw1 h => ?_, fun K musb hw1 h => ?_, fun K musb h hs hf => ?_⟩
  · simp [omap2430_idle_restore_context, omap2430_idle_save_context, omap2430_save_context,
      omap2430_restore_context, h, musb_writel, musb_readl, u32_idem]
  · simp [omap2430_idle_restore_context, omap2430_idle_save_context, omap2430_save_context,
      omap2430_restore_context, h, musb_writel, musb_readl, u32_idem, regFile, RegFile.get,
      RegFile.set]
  · simp [omap2430_idle_restore_context, omap2430_idle_save_context, omap2430_save_context,
      omap2430_restore_context, h, musb_writel, musb_readl, u32_idem, regFile, RegFile.get,
      RegFile.set, u32_of_lt _ hs, u32_of_lt _ hf]

/-- Witness for C5: the registers are overwritten with 7 and 9 between save and restore. -/
theorem idle_save_restore_roundtrip_witness :
    (omap2430_idle_restore_context (regFile linux)
        { omap2430_idle_save_context (regFile linux)
            (musb0 { regs0 0 100 with otg_sysconfig := 0x2010, otg_forcestdby := 1 }
              OTG_STATE_B_IDLE) with
          hw := { regs0 0 100 with otg_sysconfig := 7, otg_forcestdby := 9 } }).hw =
      { regs0 0 100 with otg_sysconfig := 0x2010, otg_forcestdby := 1 } :=
  (idle_save_restore_roundtrip.2.1 linux
    (musb0 { regs0 0 100 with otg_sysconfig := 0x2010, otg_forcestdby := 1 } OTG_STATE_B_IDLE)
    { regs0 0 100 with otg_sysconfig := 7, otg_forcestdby := 9 } rfl).trans (by decide)

section Context
variable {σ : Type} (P : Platform σ)

/-- C6: with the clock-enabled flag clear, `omap2430_idle_restore_context` and
`omap2430_idle_save_context` return at once: the platform state (no register read or
written), the snapshot and the flag are exactly as before. -/
theorem idle_context_clock_off (musb : Musb σ) (h : musb.musb_clock_on = false) :
    omap2430_idle_restore_context P musb = musb ∧
    omap2430_idle_save_context P musb = musb := by
  constructor
  · simp [omap2430_idle_restore_context, h]
  · simp [omap2430_idle_save_context, h]

theorem suspend_eq (musb : Musb σ) (h : musb.musb_clock_on = true) :
    omap2430_suspend P musb =
      (0, { musb with
        hw := P.clk_disable
          (musb_readl P (musb_readl P (omap2430_suspend_quiesced P musb) OTG_SYSCONFIG).2
            OTG_FORCESTDBY).2
        context_otg_sysconfig :=
          (musb_readl P (omap2430_suspend_quiesced P musb) OTG_SYSCONFIG).1
        context_otg_forcestandby :=
          (musb_readl P (musb_readl P (omap2430_suspend_quiesced P musb) OTG_SYSCONFIG).2
            OTG_FORCESTDBY).1
        musb_clock_on := false }) := by
  simp [omap2430_suspend, h, omap2430_suspend_quiesced, omap2430_save_context,
    omap2430_low_level_exit]

/-- C8: when `omap2430_resume` runs with the clock-enabled flag clear and `clk_enable`
fails with a non-zero code, resume returns that code and changes nothing but what
`clk_enable` itself did to the platform: the flag stays clear and no register is
written.  Resume returns 0 when the flag was already set or `clk_enable` gives 0. -/
theorem resume_clk_enable_failure (musb : Musb σ) :
    (musb.musb_clock_on = false → (P.clk_enable musb.hw).1 ≠ 0 →
      omap2430_resume P musb =
        ((P.clk_enable musb.hw).1, { musb with hw := (P.clk_enable musb.hw).2 }) ∧
      (omap2430_resume P musb).2.musb_clock_on = false) ∧
    (musb.musb_clock_on = true ∨ (P.clk_enable musb.hw).1 = 0 →
      (omap2430_resume P musb).1 = 0) := by
  refine ⟨fun h he => ?_, fun h => ?_⟩
  · simp [omap2430_resume, h, he]
  · unfold omap2430_resume
    by_cases hc : musb.musb_clock_on = true
    · simp [hc]
    · rcases h with h | h
      · exact absurd h hc
      · simp [hc, h]

end Context

/-- Witness for C6: a suspended controller on the register file. -/
theorem idle_context_clock_off_witness :
    omap2430_idle_restore_context (regFile linux)
        { musb0 (regs0 0 100) OTG_STATE_B_IDLE with
          musb_clock_on := false, context_otg_sysconfig := 5 } =
      { musb0 (regs0 0 100) OTG_STATE_B_IDLE with
        musb_clock_on := false, context_otg_sysconfig := 5 } ∧
    omap2430_idle_save_context (regFile linux)
        { musb0 (regs0 0 100) OTG_STATE_B_IDLE with
          musb_clock_on := false, context_otg_sysconfig := 5 } =
      { musb0 (regs0 0 100) OTG_STATE_B_IDLE with
        musb_clock_on := false, context_otg_sysconfig := 5 } :=
  idle_context_clock_off (regFile linux)
    { musb0 (regs0 0 100) OTG_STATE_B_IDLE with
      musb_clock_on := false, context_otg_sysconfig := 5 } rfl

/-- Witness for C8: the clock framework answers -19 to a suspended controller. -/
theorem resume_clk_enable_failure_witness :
    omap2430_resume (regFile linux)
        { musb0 { regs0 0 100 with clk_on := false, clk_enable_ret := -19 }
            OTG_STATE_B_IDLE with musb_clock_on := false } =
      (-19, { musb0 { regs0 0 100 with clk_on := false, clk_enable_ret := -19 }
                OTG_STATE_B_IDLE with musb_clock_on := false }) ∧
    (omap2430_resume (regFile linux) (musb0 (regs0 0 100) OTG_STATE_B_IDLE)).1 = 0 :=
  ⟨((resume_clk_enable_failure (regFile linux)
      { musb0 { regs0 0 100 with clk_on := false, clk_enable_ret := -19 }
          OTG_STATE_B_IDLE with musb_clock_on := false }).1 rfl (by decide)).1,
    (resume_clk_enable_failure (regFile linux) (musb0 (regs0 0 100) OTG_STATE_B_IDLE)).2
      (Or.inl rfl)⟩

/-- C7: `omap2430_suspend` with the clock-enabled flag set returns 0 and leaves the
snapshot holding what OTG_SYSCONFIG and OTG_FORCESTDBY read after the low level
quiesce, the clock disabled as the last platform action, and the flag clear; a second
call right after returns 0 and changes nothing.  On the register file the snapshot and
the registers hold the prior values with ENABLEWAKEUP and ENABLEFORCE set and every
other bit unchanged. -/
theorem suspend_twice :
    (∀ (σ : Type) (P : Platform σ) (musb : Musb σ),
      musb.musb_clock_on = true →
      omap2430_suspend P musb =
        (0, { musb with
          hw := P.clk_disable
            (musb_readl P (musb_readl P (omap2430_suspend_quiesced P musb) OTG_SYSCONFIG).2
              OTG_FORCESTDBY).2
          context_otg_sysconfig :=
            (musb_readl P (omap2430_suspend_quiesced P musb) OTG_SYSCONFIG).1
          context_otg_forcestandby :=
            (musb_readl P (musb_readl P (omap2430_suspend_quiesced P musb) OTG_SYSCONFIG).2
              OTG_FORCESTDBY).1
          musb_clock_on := false }) ∧
      omap2430_suspend P (omap2430_suspend P musb).2 = (0, (omap2430_suspend P musb).2)) ∧
    (∀ (K : Consts) (musb : Musb RegFile),
      musb.musb_clock_on = true →
      (omap2430_suspend (regFile K) musb).2 =
        { musb with
          hw := { musb.hw with
            otg_sysconfig := u32 (u32 musb.hw.otg_sysconfig ||| K.ENABLEWAKEUP)
            otg_forcestdby := u32 (u32 musb.hw.otg_forcestdby ||| K.ENABLEFORCE)
            clk_on := false }
          context_otg_sysconfig := u32 (u32 musb.hw.otg_sysconfig ||| K.ENABLEWAKEUP)
          context_otg_forcestandby := u32 (u32 musb.hw.otg_forcestdby ||| K.ENABLEFORCE)
          musb_clock_on := false } ∧
      (∀ i, (omap2430_suspend (regFile K) musb).2.context_otg_sysconfig.testBit i =
        (decide (i < 32) &&
          (musb.hw.otg_sysconfig.testBit i || K.ENABLEWAKEUP.testBit i))) ∧
      (∀ i, (omap2430_suspend (regFile K) musb).2.context_otg_forcestandby.testBit i =
        (decide (i < 32) &&
          (musb.hw.otg_forcestdby.testBit i || K.ENABLEFORCE.testBit i)))) := by
  have hreg : ∀ (K : Consts) (musb : Musb RegFile), musb.musb_clock_on = true →
      (omap2430_suspend (regFile K) musb).2 =
        { musb with
          hw := { musb.hw with
            otg_sysconfig := u32 (u32 musb.hw.otg_sysconfig ||| K.ENABLEWAKEUP)
            otg_forcestdby := u32 (u32 musb.hw.otg_forcestdby ||| K.ENABLEFORCE)
            clk_on := false }
          context_otg_sysconfig := u32 (u32 musb.hw.otg_sysconfig ||| K.ENABLEWAKEUP)
          context_otg_forcestandby := u32 (u32 musb.hw.otg_forcestdby ||| K.ENABLEFORCE)
          musb_clock_on := false } := by
    intro K musb h
    simp [omap2430_suspend, h, omap2430_save_context, omap2430_low_level_exit, musb_writel,
      musb_readl, u32_idem, regFile, RegFile.get, RegFile.set]
  refine ⟨fun σ P musb h => ⟨suspend_eq P musb h, ?_⟩, fun K musb h => ⟨hreg K musb h, ?_, ?_⟩⟩
  · rw [suspend_eq P musb h]
    simp [omap2430_suspend]
  · intro i
    rw [hreg K musb h]
    exact testBit_u32_set _ _ _
  · intro i
    rw [hreg K musb h]
    exact testBit_u32_set _ _ _

/-- Witness for C7: suspend twice from OTG_SYSCONFIG = 0x2010 and OTG_FORCESTDBY = 0. -/
theorem suspend_twice_witness :
    omap2430_suspend (regFile linux)
        (musb0 { regs0 0 100 with otg_sysconfig := 0x2010 } OTG_STATE_B_IDLE) =
      (0, { musb0 { regs0 0 100 with
                otg_sysconfig := 0x2014, otg_forcestdby := 1, clk_on := false }
              OTG_STATE_B_IDLE with
            context_otg_sysconfig := 0x2014, context_otg_forcestandby := 1,
            musb_clock_on := false }) ∧
    omap2430_suspend (regFile linux)
        (omap2430_suspend (regFile linux)
          (musb0 { regs0 0 100 with otg_sysconfig := 0x2010 } OTG_STATE_B_IDLE)).2 =
      (0, (omap2430_suspend (regFile linux)
          (musb0 { regs0 0 100 with otg_sysconfig := 0x2010 } OTG_STATE_B_IDLE)).2) :=
  ⟨by decide,
    (suspend_twice.1 RegFile (regFile linux)
      (musb0 { regs0 0 100 with otg_sysconfig := 0x2010 } OTG_STATE_B_IDLE) rfl).2⟩

/-! ## Idle timer handler -/

section DoIdle
variable {σ : Type} (P : Platform σ)

/-- C9: when `musb_do_idle` runs in state A_WAIT_BCON it writes the device control
register with the value read and the session bits cleared, then reads it again.  If
that second value has MUSB_DEVCTL_HM set the state becomes A_IDLE in host mode and the
timer is left alone; otherwise the state becomes B_IDLE in peripheral mode and the
idle timer is armed for jiffies + 2 * HZ.  Nothing else changes. -/
theorem do_idle_a_wait_bcon (musb : Musb σ) (r r2 : Nat × σ) (v : Nat)
    (hst : musb.xceiv_state = OTG_STATE_A_WAIT_BCON)
    (hr : r = musb_readb P musb.hw MUSB_DEVCTL)
    (hv : v = u8 (r.1 &&& bnot32 P.MUSB_DEVCTL_SESSION))
    (hr2 : r2 = musb_readb P (P.write r.2 MUSB_DEVCTL v) MUSB_DEVCTL) :
    (r2.1 &&& P.MUSB_DEVCTL_HM ≠ 0 →
      musb_do_idle P musb =
        { musb with hw := r2.2, xceiv_state := OTG_STATE_A_IDLE, is_host := true }) ∧
    (r2.1 &&& P.MUSB_DEVCTL_HM = 0 →
      musb_do_idle P musb =
        { musb with
          hw := r2.2, xceiv_state := OTG_STATE_B_IDLE, is_host := false
          musb_idle_timer := some (ulong (jiffies P r2.2 + 2 * P.HZ)) }) ∧
    (∀ i, v.testBit i = (r.1.testBit i && !P.MUSB_DEVCTL_SESSION.testBit i)) := by
  subst hr hv
  have hw : musb_writeb P (musb_readb P musb.hw MUSB_DEVCTL).2 MUSB_DEVCTL
      (u8 ((musb_readb P musb.hw MUSB_DEVCTL).1 &&& bnot32 P.MUSB_DEVCTL_SESSION)) =
      P.write (musb_readb P musb.hw MUSB_DEVCTL).2 MUSB_DEVCTL
        (u8 ((musb_readb P musb.hw MUSB_DEVCTL).1 &&& bnot32 P.MUSB_DEVCTL_SESSION)) := by
    simp [musb_writeb, u8_idem]
  refine ⟨fun h => ?_, fun h => ?_, fun i => ?_⟩
  · unfold musb_do_idle
    simp only [hst, hw, ← hr2, ne_eq, h, not_false_eq_true, ↓reduceIte, MUSB_HST_MODE]
  · unfold musb_do_idle
    simp only [hst, hw, ← hr2, ne_eq, h, not_true_eq_false, ↓reduceIte, MUSB_DEV_MODE,
      mod_timer, POLL_SECONDS]
  · simp only [musb_readb]
    rw [testBit_u8_clear]
    unfold u8
    rw [Nat.testBit_mod_two_pow]

/-- C10: when `musb_do_idle` runs in state B_IDLE with the peripheral role disabled it
changes nothing.  With the role enabled it reads the device control register: if
MUSB_DEVCTL_HM is set the state becomes A_HOST and nothing is written or armed;
otherwise the register is written with the value read and the session bits set, the
idle timer is armed for jiffies + 2 * HZ and the state stays B_IDLE. -/
theorem do_idle_b_idle (musb : Musb σ) (r : Nat × σ)
    (hst : musb.xceiv_state = OTG_STATE_B_IDLE)
    (hr : r = musb_readb P musb.hw MUSB_DEVCTL) :
    (musb.peripheral_enabled = false → musb_do_idle P musb = musb) ∧
    (musb.peripheral_enabled = true → r.1 &&& P.MUSB_DEVCTL_HM ≠ 0 →
      musb_do_idle P musb = { musb with hw := r.2, xceiv_state := OTG_STATE_A_HOST }) ∧
    (musb.peripheral_enabled = true → r.1 &&& P.MUSB_DEVCTL_HM = 0 →
      musb_do_idle P musb =
        { musb with
          hw := P.write r.2 MUSB_DEVCTL (u8 (r.1 ||| P.MUSB_DEVCTL_SESSION))
          musb_idle_timer := some (ulong (jiffies P r.2 + 2 * P.HZ)) } ∧
      (musb_do_idle P musb).xceiv_state = OTG_STATE_B_IDLE) ∧
    (∀ i, (u8 (r.1 ||| P.MUSB_DEVCTL_SESSION)).testBit i =
      (decide (i < 8) && (r.1.testBit i || P.MUSB_DEVCTL_SESSION.testBit i))) := by
  subst hr
  refine ⟨fun hp => ?_, fun hp h => ?_, fun hp h => ?_, fun i => ?_⟩
  · unfold musb_do_idle
    simp [hst, musb_do_idle_b_idle, hp]
  · unfold musb_do_idle
    simp [hst, musb_do_idle_b_idle, hp, h]
  · unfold musb_do_idle
    simp [hst, musb_do_idle_b_idle, hp, h, mod_timer, musb_writeb, POLL_SECONDS]
  · simp only [musb_readb]
    rw [testBit_u8_set]
    unfold u8
    rw [Nat.testBit_mod_two_pow]
    cases decide (i < 8) <;> simp

end DoIdle

/-- Witness for C9 on the register file: device control 0x05 reads back 0x04 with host
mode set; device control 0x01 reads back 0 and the timer is armed for 100 + 256. -/
theorem do_idle_a_wait_bcon_witness :
    musb_do_idle (regFile linux) (musb0 (regs0 0x05 100) OTG_STATE_A_WAIT_BCON) =
      { musb0 (regs0 0x04 100) OTG_STATE_A_IDLE with is_host := true } ∧
    musb_do_idle (regFile linux)
        { musb0 (regs0 0x01 100) OTG_STATE_A_WAIT_BCON with is_host := true } =
      { musb0 (regs0 0 100) OTG_STATE_B_IDLE with musb_idle_timer := some 356 } :=
  ⟨((do_idle_a_wait_bcon (regFile linux) (musb0 (regs0 0x05 100) OTG_STATE_A_WAIT_BCON)
      (0x05, regs0 0x05 100) (0x04, regs0 0x04 100) 0x04 rfl rfl rfl rfl).1
      (by decide)).trans (by decide),
    ((do_idle_a_wait_bcon (regFile linux)
      { musb0 (regs0 0x01 100) OTG_STATE_A_WAIT_BCON with is_host := true }
      (0x01, regs0 0x01 100) (0, regs0 0 100) 0 rfl rfl rfl rfl).2.1
      (by decide)).trans (by decide)⟩

/-- Witness for C10 on the register file: role disabled, role enabled with host mode
reported, and role enabled without host mode. -/
theorem do_idle_b_idle_witness :
    musb_do_idle (regFile linux) (musb0 (regs0 0x10 100) OTG_STATE_B_IDLE) =
      musb0 (regs0 0x10 100) OTG_STATE_B_IDLE ∧
    musb_do_idle (regFile linux)
        { musb0 (regs0 0x14 100) OTG_STATE_B_IDLE with peripheral_enabled := true } =
      { musb0 (regs0 0x14 100) OTG_STATE_A_HOST with peripheral_enabled := true } ∧
    musb_do_idle (regFile linux)
        { musb0 (regs0 0x10 100) OTG_STATE_B_IDLE with peripheral_enabled := true } =
      { musb0 (regs0 0x11 100) OTG_STATE_B_IDLE with
        peripheral_enabled := true, musb_idle_timer := some 356 } :=
  ⟨(do_idle_b_idle (regFile linux) (musb0 (regs0 0x10 100) OTG_STATE_B_IDLE)
      (0x10, regs0 0x10 100) rfl rfl).1 rfl,
    ((do_idle_b_idle (regFile linux)
      { musb0 (regs0 0x14 100) OTG_STATE_B_IDLE with peripheral_enabled := true }
      (0x14, regs0 0x14 100) rfl rfl).2.1 rfl (by decide)).trans (by decide),
    ((do_idle_b_idle (regFile linux)
      { musb0 (regs0 0x10 100) OTG_STATE_B_IDLE with peripheral_enabled := true }
      (0x10, regs0 0x10 100) rfl rfl).2.2.1 rfl (by decide)).1.trans (by decide)⟩

/-! ## Transceiver notifications -/

section Notify
variable {σ : Type} (P : Platform σ)

theorem set_vbus_on_returns (fuel k : Nat) (musb : Musb σ) (hk : k < fuel)
    (hend : omap2430_musb_set_vbus_wait_ends P
      ((omap2430_musb_set_vbus_wait_next P)^[k]
        (musb_writeb P (musb_readb P musb.hw MUSB_DEVCTL).2 MUSB_DEVCTL
          (u8 ((musb_readb P musb.hw MUSB_DEVCTL).1 ||| P.MUSB_DEVCTL_SESSION))))
      (ulong (jiffies P musb.hw + P.msecs_to_jiffies 1000)) = true) :
    ∃ musb1, omap2430_musb_set_vbus P fuel musb 1 = some musb1 := by
  by_cases hst : musb.xceiv_state = OTG_STATE_A_IDLE
  · obtain ⟨r, hr⟩ := set_vbus_wait_returns P k fuel _ _ hk hend
    simp only [omap2430_musb_set_vbus, ne_eq, one_ne_zero, not_false_eq_true, ↓reduceIte,
      hst, hr]
    exact ⟨_, rfl⟩
  · simp only [omap2430_musb_set_vbus, ne_eq, one_ne_zero, not_false_eq_true, ↓reduceIte,
      hst]
    exact ⟨_, rfl⟩

/-- C11: with distinct case labels and NOTIFY_OK different from NOTIFY_DONE,
`musb_otg_notifications` returns NOTIFY_OK exactly for USB_EVENT_ID, USB_EVENT_VBUS and
USB_EVENT_NONE and never anything but NOTIFY_OK or NOTIFY_DONE; it returns as soon as
the bounded wait of the VBUS request ends.  For any other event it returns
NOTIFY_DONE with the state, the platform and the call record untouched.  On
USB_EVENT_VBUS it re-initializes the transceiver.  On USB_EVENT_NONE it shuts the
transceiver down, after an `otg_set_vbus(0)` exactly when the interface type is UTMI
and the transceiver provides `set_vbus`. -/
theorem otg_notifications_ack (fuel : Nat) (musb : Musb σ) (event : Nat)
    (hok : P.NOTIFY_OK ≠ P.NOTIFY_DONE)
    (hni : P.USB_EVENT_NONE ≠ P.USB_EVENT_ID)
    (hnv : P.USB_EVENT_NONE ≠ P.USB_EVENT_VBUS)
    (hvi : P.USB_EVENT_VBUS ≠ P.USB_EVENT_ID) :
    (∀ r, musb_otg_notifications P fuel musb event = some r →
      (r.1 = P.NOTIFY_OK ∨ r.1 = P.NOTIFY_DONE) ∧
      (r.1 = P.NOTIFY_OK ↔
        (event = P.USB_EVENT_ID ∨ event = P.USB_EVENT_VBUS ∨ event = P.USB_EVENT_NONE))) ∧
    (∀ k, k < fuel →
      omap2430_musb_set_vbus_wait_ends P
        ((omap2430_musb_set_vbus_wait_next P)^[k]
          (musb_writeb P (musb_readb P musb.hw MUSB_DEVCTL).2 MUSB_DEVCTL
            (u8 ((musb_readb P musb.hw MUSB_DEVCTL).1 ||| P.MUSB_DEVCTL_SESSION))))
        (ulong (jiffies P musb.hw + P.msecs_to_jiffies 1000)) = true →
      ∃ r, musb_otg_notifications P fuel musb event = some r) ∧
    (¬ (event = P.USB_EVENT_ID ∨ event = P.USB_EVENT_VBUS ∨ event = P.USB_EVENT_NONE) →
      musb_otg_notifications P fuel musb event = some (P.NOTIFY_DONE, musb)) ∧
    (event = P.USB_EVENT_VBUS →
      musb_otg_notifications P fuel musb event =
        some (P.NOTIFY_OK, { musb with calls := musb.calls ++ [Call.otg_init] })) ∧
    (event = P.USB_EVENT_NONE →
      musb_otg_notifications P fuel musb event =
        some (P.NOTIFY_OK,
          { musb with
            calls := musb.calls ++
              (if musb.interface_type = P.MUSB_INTERFACE_UTMI ∧ musb.xceiv_set_vbus = true
                then [Call.otg_set_vbus false] else []) ++
              [Call.otg_shutdown] })) := by
  refine ⟨fun r h => ?_, fun k hk hend => ?_, fun h => ?_, fun h => ?_, fun h => ?_⟩
  · unfold musb_otg_notifications at h
    by_cases h1 : event = P.USB_EVENT_ID
    · rw [if_pos h1] at h
      simp only [Option.map_eq_some'] at h
      obtain ⟨m, -, rfl⟩ := h
      simp [h1]
    · rw [if_neg h1] at h
      by_cases h2 : event = P.USB_EVENT_VBUS
      · rw [if_pos h2] at h
        cases h
        simp [h2]
      · rw [if_neg h2] at h
        by_cases h3 : event = P.USB_EVENT_NONE
        · rw [if_pos h3] at h
          cases h
          simp [h3]
        · rw [if_neg h3] at h
          cases h
          simp [h1, h2, h3, hok.symm]
  · have hret : ∀ m : Musb σ, m.hw = musb.hw →
        ∃ musb1, omap2430_musb_set_vbus P fuel m 1 = some musb1 := by
      intro m hm
      apply set_vbus_on_returns P fuel k m hk
      rw [hm]
      exact hend
    obtain ⟨m1, hm1⟩ := hret (otg_init musb) rfl
    unfold musb_otg_notifications
    by_cases h1 : event = P.USB_EVENT_ID
    · simp only [h1, ↓reduceIte, hm1]
      split_ifs <;> exact ⟨_, rfl⟩
    · simp only [h1, ↓reduceIte]
      split_ifs <;> exact ⟨_, rfl⟩
  · simp only [not_or] at h
    simp [musb_otg_notifications, h.1, h.2.1, h.2.2]
  · subst h
    simp [musb_otg_notifications, hvi, otg_init]
  · subst h
    unfold musb_otg_notifications
    simp only [hni, hnv, ↓reduceIte, otg_shutdown, otg_set_vbus]
    by_cases hu : musb.interface_type = P.MUSB_INTERFACE_UTMI
    · by_cases hs : musb.xceiv_set_vbus = true
      · simp [hu, hs]
      · simp [hu, hs]
    · simp [hu]

end Notify

/-- Witness for C11 on the register file: VBUS absent on a UTMI board, an unknown event,
and cable detect with the VBUS request returning at once. -/
theorem otg_notifications_ack_witness :
    musb_otg_notifications (regFile linux) 1 (musb0 (regs0 0x18 100) OTG_STATE_B_IDLE) 0 =
      some (1, { musb0 (regs0 0x18 100) OTG_STATE_B_IDLE with
        calls := [Call.otg_set_vbus false, Call.otg_shutdown] }) ∧
    musb_otg_notifications (regFile linux) 1 (musb0 (regs0 0x18 100) OTG_STATE_B_IDLE) 7 =
      some (0, musb0 (regs0 0x18 100) OTG_STATE_B_IDLE) ∧
    (∃ r, musb_otg_notifications (regFile linux) 1
        (musb0 (regs0 0x18 100) OTG_STATE_A_IDLE) 2 = some r ∧ r.1 = 1) := by
  have hN := otg_notifications_ack (regFile linux) 1 (musb0 (regs0 0x18 100) OTG_STATE_B_IDLE)
    0 (by decide) (by decide) (by decide) (by decide)
  have hD := otg_notifications_ack (regFile linux) 1 (musb0 (regs0 0x18 100) OTG_STATE_B_IDLE)
    7 (by decide) (by decide) (by decide) (by decide)
  have hI := otg_notifications_ack (regFile linux) 1 (musb0 (regs0 0x18 100) OTG_STATE_A_IDLE)
    2 (by decide) (by decide) (by decide) (by decide)
  obtain ⟨r, hr⟩ := hI.2.1 0 (by decide) (by decide)
  exact ⟨(hN.2.2.2.2 rfl).trans (by decide), hD.2.2.1 (by decide),
    ⟨r, hr, ((hI.1 r hr).2).2 (Or.inl rfl)⟩⟩

/-! ## Idle timer handler, host states -/

/-- C12: evaluation of `musb_do_idle` in state A_HOST with host support compiled in and
MUSB_DEVCTL_HM set in the device control register (0x5d).  With the peripheral role
enabled the handler assigns A_WAIT_BCON, runs on into the B_IDLE case and ends in
A_HOST; only with the role disabled does it end in A_WAIT_BCON. -/
theorem do_idle_a_host_falls_through :
    linux.CONFIG_USB_MUSB_HDRC_HCD = true ∧
    0x5d &&& linux.MUSB_DEVCTL_HM ≠ 0 ∧
    (musb_do_idle (regFile linux)
      { musb0 (regs0 0x5d 100) OTG_STATE_A_HOST with
        peripheral_enabled := true }).xceiv_state = OTG_STATE_A_HOST ∧
    (musb_do_idle (regFile linux)
      { musb0 (regs0 0x5d 100) OTG_STATE_A_HOST with
        peripheral_enabled := false }).xceiv_state = OTG_STATE_A_WAIT_BCON := by
  decide

section HostStates
variable {σ : Type} (P : Platform σ)

theorem set_vbus_wait_ret (fuel : Nat) :
    ∀ (hw : σ) (timeout : Nat) (ret : Int) (hw2 : σ),
      omap2430_musb_set_vbus_wait P fuel hw timeout = some (ret, hw2) →
      ret = 1 ∨ ret = -(P.EINVAL : Int) := by
  induction fuel with
  | zero =>
    intro hw timeout ret hw2 h
    simp [omap2430_musb_set_vbus_wait] at h
  | succ f ih =>
    intro hw timeout ret hw2 h
    unfold omap2430_musb_set_vbus_wait at h
    by_cases hb : (musb_readb P hw MUSB_DEVCTL).1 &&& 0x80 = 0
    · simp only [ne_eq, hb, not_true_eq_false, ↓reduceIte, Option.some.injEq,
        Prod.mk.injEq] at h
      exact Or.inl h.1.symm
    · by_cases ht : time_after (jiffies P (P.cpu_relax (musb_readb P hw MUSB_DEVCTL).2))
          timeout = true
      · simp only [ne_eq, hb, not_false_eq_true, ↓reduceIte, ht, Option.some.injEq,
          Prod.mk.injEq] at h
        exact Or.inr h.1.symm
      · simp only [ne_eq, hb, not_false_eq_true, ↓reduceIte, ht] at h
        exact ih _ _ _ _ h

/-- C13 as amended: `omap2430_musb_set_vbus(musb, 1)` in state A_IDLE writes the device
control register with the session bits set, waits on it with a bound of
`msecs_to_jiffies(1000)` after the jiffies at entry, and then, whether the wait
succeeded (ret 1) or timed out (ret -EINVAL, EINVAL non-zero), calls
`otg_set_vbus(xceiv, 1)` exactly when the transceiver provides `set_vbus`; it returns
as soon as the wait ends. -/
theorem set_vbus_on_raises_vbus (fuel : Nat) (musb : Musb σ) (hw1 : σ) (timeout : Nat)
    (hst : musb.xceiv_state = OTG_STATE_A_IDLE) (he : P.EINVAL ≠ 0)
    (hhw : hw1 = P.write (musb_readb P musb.hw MUSB_DEVCTL).2 MUSB_DEVCTL
      (u8 ((musb_readb P musb.hw MUSB_DEVCTL).1 ||| P.MUSB_DEVCTL_SESSION)))
    (hto : timeout = ulong (jiffies P musb.hw + P.msecs_to_jiffies 1000)) :
    (∀ musb1, omap2430_musb_set_vbus P fuel musb 1 = some musb1 →
      ∃ ret hw2, omap2430_musb_set_vbus_wait P fuel hw1 timeout = some (ret, hw2) ∧
        (ret = 1 ∨ ret = -(P.EINVAL : Int)) ∧
        musb1 = { musb with
          hw := P.write hw2 MUSB_DEVCTL
            (u8 ((musb_readb P musb.hw MUSB_DEVCTL).1 ||| P.MUSB_DEVCTL_SESSION))
          calls := musb.calls ++
            (if musb.xceiv_set_vbus = true then [Call.otg_set_vbus true] else []) }) ∧
    (∀ k, k < fuel →
      omap2430_musb_set_vbus_wait_ends P
        ((omap2430_musb_set_vbus_wait_next P)^[k] hw1) timeout = true →
      ∃ musb1, omap2430_musb_set_vbus P fuel musb 1 = some musb1) := by
  have hw1eq : musb_writeb P (musb_readb P musb.hw MUSB_DEVCTL).2 MUSB_DEVCTL
      (u8 ((musb_readb P musb.hw MUSB_DEVCTL).1 ||| P.MUSB_DEVCTL_SESSION)) = hw1 := by
    rw [hhw]
    simp [musb_writeb, u8_idem]
  refine ⟨fun musb1 h => ?_, fun k hk hend => ?_⟩
  · simp only [omap2430_musb_set_vbus, ne_eq, one_ne_zero, not_false_eq_true, ↓reduceIte,
      hst, hw1eq, ← hto] at h
    cases hwait : omap2430_musb_set_vbus_wait P fuel hw1 timeout with
    | none => simp [hwait] at h
    | some r =>
      obtain ⟨ret, hw2⟩ := r
      have hret := set_vbus_wait_ret P fuel hw1 timeout ret hw2 hwait
      have hne : ret ≠ 0 := by
        rcases hret with hret | hret
        · rw [hret]
          exact one_ne_zero
        · rw [hret]
          simpa using he
      refine ⟨ret, hw2, rfl, hret, ?_⟩
      by_cases hs : musb.xceiv_set_vbus = true
      · simp only [hwait, hne, hs, not_false_eq_true, and_self, ↓reduceIte,
          Option.some.injEq] at h
        rw [← h]
        simp [hs, hst, musb_writeb, u8_idem]
      · simp only [hwait, hne, hs, not_false_eq_true, and_false, ↓reduceIte,
          Option.some.injEq] at h
        rw [← h]
        simp [hs, hst, musb_writeb, u8_idem]
  · apply set_vbus_on_returns P fuel k musb hk
    rw [hw1eq, ← hto]
    exact hend

/-- C14: with host support compiled in, `musb_do_idle` in state A_SUSPEND with
MUSB_PORT_STAT_RESUME set in `port1_status` rewrites the power register with the
resume bits cleared and every other bit as read, sets `is_active`, clears the suspend
and resume flags of `port1_status` and sets `USB_PORT_STAT_C_SUSPEND << 16` with every
other bit unchanged, polls the root hub status once and moves to A_HOST.  Without the
resume flag nothing changes.  The idle timer is untouched in both cases. -/
theorem do_idle_a_suspend (musb : Musb σ) (r : Nat × σ)
    (hcfg : P.CONFIG_USB_MUSB_HDRC_HCD = true)
    (hst : musb.xceiv_state = OTG_STATE_A_SUSPEND)
    (hr : r = musb_readb P musb.hw MUSB_POWER) :
    (musb.port1_status &&& P.MUSB_PORT_STAT_RESUME ≠ 0 →
      musb_do_idle P musb =
        { musb with
          hw := P.write r.2 MUSB_POWER (u8 (r.1 &&& bnot32 P.MUSB_POWER_RESUME))
          is_active := true
          port1_status :=
            u32 (u32 (musb.port1_status &&&
              bnot32 (P.USB_PORT_STAT_SUSPEND ||| P.MUSB_PORT_STAT_RESUME)) |||
              (P.USB_PORT_STAT_C_SUSPEND <<< 16))
          calls := musb.calls ++ [Call.usb_hcd_poll_rh_status]
          xceiv_state := OTG_STATE_A_HOST } ∧
      (musb_do_idle P musb).musb_idle_timer = musb.musb_idle_timer) ∧
    (musb.port1_status &&& P.MUSB_PORT_STAT_RESUME = 0 → musb_do_idle P musb = musb) ∧
    (∀ i, (u8 (r.1 &&& bnot32 P.MUSB_POWER_RESUME)).testBit i =
      (r.1.testBit i && !P.MUSB_POWER_RESUME.testBit i)) ∧
    (∀ i, (u32 (u32 (musb.port1_status &&&
          bnot32 (P.USB_PORT_STAT_SUSPEND ||| P.MUSB_PORT_STAT_RESUME)) |||
          (P.USB_PORT_STAT_C_SUSPEND <<< 16))).testBit i =
      (decide (i < 32) &&
        ((musb.port1_status.testBit i &&
            !(P.USB_PORT_STAT_SUSPEND.testBit i || P.MUSB_PORT_STAT_RESUME.testBit i)) ||
          (P.USB_PORT_STAT_C_SUSPEND <<< 16).testBit i))) := by
  subst hr
  refine ⟨fun h => ?_, fun h => ?_, fun i => ?_, fun i => ?_⟩
  · unfold musb_do_idle
    simp [hst, hcfg, h, musb_writeb, u8_idem]
  · unfold musb_do_idle
    simp [hst, hcfg, h]
  · simp only [musb_readb]
    rw [testBit_u8_clear]
    unfold u8
    rw [Nat.testBit_mod_two_pow]
  · rw [testBit_u32_set, Nat.testBit_and, testBit_bnot32, Nat.testBit_or]
    by_cases h : i < 32 <;> simp [h]

end HostStates

/-- Witness for C13 as amended: on the register file the wait succeeds at the first poll
(bit 0x80 clear) and `otg_set_vbus(xceiv, 1)` is recorded. -/
theorem set_vbus_on_raises_vbus_witness :
    ∃ musb1,
      omap2430_musb_set_vbus (regFile linux) 1 (musb0 (regs0 0x18 100) OTG_STATE_A_IDLE) 1 =
        some musb1 ∧
      musb1.calls = [Call.otg_set_vbus true] := by
  have h := set_vbus_on_raises_vbus (regFile linux) 1
    (musb0 (regs0 0x18 100) OTG_STATE_A_IDLE) (regs0 0x19 100) 228
    rfl (by decide) (by decide) (by decide)
  obtain ⟨musb1, h1⟩ := h.2 0 (by decide) (by decide)
  obtain ⟨ret, hw2, -, -, h2⟩ := h.1 musb1 h1
  exact ⟨musb1, h1, by rw [h2]; rfl⟩

/-- Counterexample to C13 as stated: `otg_set_vbus(xceiv, 1)` is not invoked exactly when
the bounded wait times out.  On the register file with device control 0x18 the wait
succeeds at the first poll (ret stays 1) and the call is made all the same. -/
theorem set_vbus_on_raise_counterexample :
    ¬ (∀ (musb musb1 : Musb RegFile) (fuel : Nat) (ret : Int) (hw2 : RegFile),
        musb.xceiv_state = OTG_STATE_A_IDLE → musb.xceiv_set_vbus = true →
        omap2430_musb_set_vbus_wait (regFile linux) fuel
          (musb_writeb (regFile linux) (musb_readb (regFile linux) musb.hw MUSB_DEVCTL).2
            MUSB_DEVCTL
            (u8 ((musb_readb (regFile linux) musb.hw MUSB_DEVCTL).1 |||
              linux.MUSB_DEVCTL_SESSION)))
          (ulong (jiffies (regFile linux) musb.hw + linux.msecs_to_jiffies 1000)) =
          some (ret, hw2) →
        omap2430_musb_set_vbus (regFile linux) fuel musb 1 = some musb1 →
        (musb1.calls = musb.calls ++ [Call.otg_set_vbus true] ↔
          ret = -(linux.EINVAL : Int))) := by
  intro h
  have h1 := h (musb0 (regs0 0x18 100) OTG_STATE_A_IDLE)
    { musb0 (regs0 0x19 100) OTG_STATE_A_IDLE with calls := [Call.otg_set_vbus true] }
    1 1 (regs0 0x19 100) rfl rfl (by decide) (by decide)
  revert h1
  decide

/-- Witness for C14 on the register file: power 0x65 and port status 0x80000107 with the
resume flag, then port status 0x107 without it. -/
theorem do_idle_a_suspend_witness :
    musb_do_idle (regFile linux)
        { musb0 ({ regs0 0x5d 100 with power := 0x65 } : RegFile) OTG_STATE_A_SUSPEND with
          port1_status := 0x80000107 } =
      { musb0 ({ regs0 0x5d 100 with power := 0x61 } : RegFile) OTG_STATE_A_HOST with
        port1_status := 0x40103, is_active := true,
        calls := [Call.usb_hcd_poll_rh_status] } ∧
    musb_do_idle (regFile linux)
        { musb0 ({ regs0 0x5d 100 with power := 0x65 } : RegFile) OTG_STATE_A_SUSPEND with
          port1_status := 0x107 } =
      { musb0 ({ regs0 0x5d 100 with power := 0x65 } : RegFile) OTG_STATE_A_SUSPEND with
        port1_status := 0x107 } :=
  ⟨((do_idle_a_suspend (regFile linux)
      { musb0 ({ regs0 0x5d 100 with power := 0x65 } : RegFile) OTG_STATE_A_SUSPEND with
        port1_status := 0x80000107 }
      (0x65, ({ regs0 0x5d 100 with power := 0x65 } : RegFile)) rfl rfl rfl).1 (by decide)).1.trans
      (by decide),
    (do_idle_a_suspend (regFile linux)
      { musb0 ({ regs0 0x5d 100 with power := 0x65 } : RegFile) OTG_STATE_A_SUSPEND with
        port1_status := 0x107 }
      (0x65, ({ regs0 0x5d 100 with power := 0x65 } : RegFile)) rfl rfl rfl).2.1 (by decide)⟩

/-! ## Suspend and resume cycle -/

theorem u32_lt (x : Nat) : u32 x < 2 ^ 32 := by
  unfold u32
  exact Nat.mod_lt _ (by decide)

theorem testBit_of_lt_two_pow (x i : Nat) (hx : x < 2 ^ 32) (hi : x.testBit i = true) :
    i < 32 := by
  by_contra hge
  have hle : 2 ^ 32 ≤ 2 ^ i := Nat.pow_le_pow_right (by decide) (by omega)
  have := Nat.testBit_lt_two_pow (Nat.lt_of_lt_of_le hx hle)
  rw [this] at hi
  exact Bool.noConfusion hi

theorem u32_set_clear_exact (x m : Nat) (hx : x < 2 ^ 32) (hm : x &&& m = 0) :
    u32 (u32 (u32 x ||| m) &&& bnot32 m) = x := by
  apply Nat.eq_of_testBit_eq
  intro i
  rw [testBit_u32_clear, Nat.testBit_or]
  unfold u32
  rw [Nat.testBit_mod_two_pow]
  have hand : (x &&& m).testBit i = false := by
    rw [hm]
    exact Nat.zero_testBit i
  rw [Nat.testBit_and] at hand
  cases hxi : x.testBit i
  · cases decide (i < 32) <;> cases m.testBit i <;> rfl
  · have hi : i < 32 := testBit_of_lt_two_pow x i hx hxi
    rw [hxi] at hand
    simp only [Bool.true_and] at hand
    simp [hi, hand]

theorem u32_clear_and (x m : Nat) : u32 (u32 x &&& bnot32 m) &&& m = 0 := by
  apply Nat.eq_of_testBit_eq
  intro i
  rw [Nat.testBit_and, testBit_u32_clear, Nat.zero_testBit]
  cases decide (i < 32) <;> cases x.testBit i <;> cases m.testBit i <;> rfl

theorem suspend_resume_regs (K : Consts) (musb : Musb RegFile) (hw1 : RegFile)
    (hclk : musb.musb_clock_on = true) (hen : hw1.clk_enable_ret = 0) :
    omap2430_resume (regFile K) { (omap2430_suspend (regFile K) musb).2 with hw := hw1 } =
      (0, { musb with
        hw := { hw1 with
          otg_sysconfig :=
            u32 (u32 (u32 musb.hw.otg_sysconfig ||| K.ENABLEWAKEUP) &&& bnot32 K.ENABLEWAKEUP)
          otg_forcestdby :=
            u32 (u32 (u32 musb.hw.otg_forcestdby ||| K.ENABLEFORCE) &&& bnot32 K.ENABLEFORCE)
          clk_on := true }
        context_otg_sysconfig := u32 (u32 musb.hw.otg_sysconfig ||| K.ENABLEWAKEUP)
        context_otg_forcestandby := u32 (u32 musb.hw.otg_forcestdby ||| K.ENABLEFORCE)
        musb_clock_on := true }) := by
  simp [omap2430_resume, omap2430_suspend, hclk, hen, omap2430_save_context,
    omap2430_restore_context, omap2430_low_level_exit, omap2430_low_level_init, musb_writel,
    musb_readl, u32_idem, regFile, RegFile.get, RegFile.set]

/-- C15: on the register file, `omap2430_suspend` with the clock-enabled flag set while
OTG_SYSCONFIG = s and OTG_FORCESTDBY = f, followed by `omap2430_resume` with a
successful clock enable on any platform state `hw1` (any register contents), returns 0
and leaves the flag set, OTG_SYSCONFIG = s with ENABLEWAKEUP cleared and
OTG_FORCESTDBY = f with ENABLEFORCE cleared, every other bit being that of s and f.
The cycle is exact for 32 bit values with those bits clear, which is what
`omap2430_low_level_init` leaves. -/
theorem suspend_resume_cycle (K : Consts) (musb : Musb RegFile) (hw1 : RegFile)
    (r : Int × Musb RegFile)
    (hclk : musb.musb_clock_on = true) (hen : hw1.clk_enable_ret = 0)
    (hr : r = omap2430_resume (regFile K)
      { (omap2430_suspend (regFile K) musb).2 with hw := hw1 }) :
    r.1 = 0 ∧ r.2.musb_clock_on = true ∧
    (∀ i, r.2.hw.otg_sysconfig.testBit i =
      (decide (i < 32) && musb.hw.otg_sysconfig.testBit i && !K.ENABLEWAKEUP.testBit i)) ∧
    (∀ i, r.2.hw.otg_forcestdby.testBit i =
      (decide (i < 32) && musb.hw.otg_forcestdby.testBit i && !K.ENABLEFORCE.testBit i)) ∧
    (musb.hw.otg_sysconfig < 2 ^ 32 → musb.hw.otg_sysconfig &&& K.ENABLEWAKEUP = 0 →
      r.2.hw.otg_sysconfig = musb.hw.otg_sysconfig) ∧
    (musb.hw.otg_forcestdby < 2 ^ 32 → musb.hw.otg_forcestdby &&& K.ENABLEFORCE = 0 →
      r.2.hw.otg_forcestdby = musb.hw.otg_forcestdby) ∧
    (∀ musb2 : Musb RegFile,
      (omap2430_low_level_init (regFile K) musb2).hw.otg_sysconfig < 2 ^ 32 ∧
      (omap2430_low_level_init (regFile K) musb2).hw.otg_sysconfig &&& K.ENABLEWAKEUP = 0 ∧
      (omap2430_low_level_init (regFile K) musb2).hw.otg_forcestdby < 2 ^ 32 ∧
      (omap2430_low_level_init (regFile K) musb2).hw.otg_forcestdby &&& K.ENABLEFORCE = 0) := by
  rw [suspend_resume_regs K musb hw1 hclk hen] at hr
  subst hr
  refine ⟨rfl, rfl, fun i => ?_, fun i => ?_, fun hs hm => ?_, fun hs hm => ?_, fun musb2 => ?_⟩
  · show (u32 (u32 (u32 musb.hw.otg_sysconfig ||| K.ENABLEWAKEUP) &&&
      bnot32 K.ENABLEWAKEUP)).testBit i = _
    rw [testBit_u32_clear, Nat.testBit_or]
    unfold u32
    rw [Nat.testBit_mod_two_pow]
    cases decide (i < 32) <;> cases musb.hw.otg_sysconfig.testBit i <;>
      cases K.ENABLEWAKEUP.testBit i <;> rfl
  · show (u32 (u32 (u32 musb.hw.otg_forcestdby ||| K.ENABLEFORCE) &&&
      bnot32 K.ENABLEFORCE)).testBit i = _
    rw [testBit_u32_clear, Nat.testBit_or]
    unfold u32
    rw [Nat.testBit_mod_two_pow]
    cases decide (i < 32) <;> cases musb.hw.otg_forcestdby.testBit i <;>
      cases K.ENABLEFORCE.testBit i <;> rfl
  · exact u32_set_clear_exact _ _ hs hm
  · exact u32_set_clear_exact _ _ hs hm
  · have hsys : (omap2430_low_level_init (regFile K) musb2).hw.otg_sysconfig =
        u32 (u32 musb2.hw.otg_sysconfig &&& bnot32 K.ENABLEWAKEUP) := by
      simp [omap2430_low_level_init, musb_writel, musb_readl, u32_idem, regFile, RegFile.get,
        RegFile.set]
    have hfs : (omap2430_low_level_init (regFile K) musb2).hw.otg_forcestdby =
        u32 (u32 musb2.hw.otg_forcestdby &&& bnot32 K.ENABLEFORCE) := by
      simp [omap2430_low_level_init, musb_writel, musb_readl, u32_idem, regFile, RegFile.get,
        RegFile.set]
    rw [hsys, hfs]
    exact ⟨u32_lt _, u32_clear_and _ _, u32_lt _, u32_clear_and _ _⟩

/-- Witness for C15: suspend from OTG_SYSCONFIG = 0x2010 and OTG_FORCESTDBY = 0, then
resume on a register file whose two registers hold 77 and 99. -/
theorem suspend_resume_cycle_witness :
    (omap2430_resume (regFile linux)
      { (omap2430_suspend (regFile linux)
          (musb0 { regs0 0 100 with otg_sysconfig := 0x2010 } OTG_STATE_B_IDLE)).2 with
        hw := { regs0 0 100 with
          otg_sysconfig := 77, otg_forcestdby := 99, clk_on := false } }).2.hw.otg_sysconfig =
      0x2010 :=
  (suspend_resume_cycle linux
    (musb0 { regs0 0 100 with otg_sysconfig := 0x2010 } OTG_STATE_B_IDLE)
    { regs0 0 100 with otg_sysconfig := 77, otg_forcestdby := 99, clk_on := false }
    _ rfl rfl rfl).2.2.2.2.1 (by decide) (by decide)

end Omap2430
